import Mathlib

/-!
Verification development for the scan-decoding, timestamping, channel
configuration and CSV serialization logic of the py2700 multimeter driver
(file src/py2700/Multimeter.py).  The Python code is shallowly embedded:
machine floats are modelled as rationals, the mutable ScanResult decoding
loop becomes explicit state passing, and code paths that raise Python
exceptions return an Except value.  The transport layer (pyvisa) is
external: the raw token list that the device reply would be split into is
passed to the scan functions as an argument, standing for
  [x.strip() for x in self.device.query("READ?").split(",")].
-/

namespace Py2700

/-- Errors raised by the modelled Python code paths: ValueError from
convert_to_float, IndexError from channels[channel_index], KeyError from
dictionary lookup in make_csv_row, and the module-level exception objects
invalid_unit_exception / not_set_up_exception; AttributeError stands for
reading self.last_scan_result before it was ever assigned. -/
inductive PyErr
  | valueError
  | indexError
  | keyError
  | invalidUnit
  | notSetUp
  | attributeError
  deriving DecidableEq

/-! ### Numeric extraction (convert_to_float, lines 18-38)

The Python function searches the token for the first occurrence of the
regular expression [-+]?(d+(.d*)?|.d+)([eE][-+]?d+)? (with d standing for
a digit class) and parses the match with float(); a token with no match
raises ValueError.  The matcher below reproduces the leftmost search and
the greedy matching of that pattern on the character list of the token. -/

/-- Numeric value of a decimal digit character. -/
def digitVal (c : Char) : ℕ := c.toNat - 48

/-- Value of a digit list, most significant digit first. -/
def digitsVal (ds : List Char) : ℕ :=
  ds.foldl (fun acc c => 10 * acc + digitVal c) 0

/-- Ten to an integer power, as a rational. -/
def pow10 (e : ℤ) : ℚ :=
  if 0 ≤ e then (10 : ℚ) ^ e.toNat else 1 / (10 : ℚ) ^ (-e).toNat

/-- Decomposed numeric literal as matched by the pattern: sign, integer
part value, fractional part value and digit count, exponent. -/
structure NumParts where
  neg : Bool
  ip : ℕ
  fp : ℕ
  fplen : ℕ
  expo : ℤ
  deriving DecidableEq

/-- Greedy match of the mantissa alternative of the pattern (digits with an
optional fractional part, or a dot followed by at least one digit) at the
head of the character list; returns the integer part, fractional part and
its length, and the unconsumed rest. -/
def matchMantissa : List Char → Option (ℕ × ℕ × ℕ × List Char)
  | [] => none
  | c :: rest =>
    if c.isDigit then
      let ip := (c :: rest).takeWhile Char.isDigit
      let r1 := (c :: rest).dropWhile Char.isDigit
      match r1 with
      | '.' :: r2 =>
        let fp := r2.takeWhile Char.isDigit
        some (digitsVal ip, digitsVal fp, fp.length, r2.dropWhile Char.isDigit)
      | _ => some (digitsVal ip, 0, 0, r1)
    else if c = '.' then
      let fp := rest.takeWhile Char.isDigit
      if fp.isEmpty then none
      else some (0, digitsVal fp, fp.length, rest.dropWhile Char.isDigit)
    else none

/-- Digits of an exponent after its optional sign; the exponent group of the
pattern requires at least one digit. -/
def expAfterSign (r : List Char) : Option ℕ :=
  let ds := r.takeWhile Char.isDigit
  if ds.isEmpty then none else some (digitsVal ds)

/-- Greedy match of the optional exponent group at the head of the list;
none when the group does not match (the group is then skipped, consuming
nothing, as the regex does). -/
def expoAt : List Char → Option ℤ
  | [] => none
  | c :: rest =>
    if c = 'e' ∨ c = 'E' then
      match rest with
      | '+' :: r2 => (expAfterSign r2).map (fun n => (n : ℤ))
      | '-' :: r2 => (expAfterSign r2).map (fun n => -(n : ℤ))
      | _ => (expAfterSign rest).map (fun n => (n : ℤ))
    else none

/-- Mantissa-then-optional-exponent part of the pattern, after the sign has
been handled; the exponent is 0 when its group does not match and is
skipped. -/
def matchAtCore (neg : Bool) (r : List Char) : Option NumParts :=
  match matchMantissa r with
  | none => none
  | some (ip, fp, fplen, rest) =>
    some ⟨neg, ip, fp, fplen, (expoAt rest).getD 0⟩

/-- Decomposition of the whole pattern matched at this exact position, if
any: optional sign, mantissa, optional exponent.  A sign that is not
followed by a mantissa fails the position entirely, as it does for the
regex (after backtracking the sign the position starts with a sign
character, which no other branch accepts). -/
def matchAt : List Char → Option NumParts
  | '-' :: r => matchAtCore true r
  | '+' :: r => matchAtCore false r
  | s => matchAtCore false s

/-- Leftmost search: try the pattern at each position in turn and return
the decomposition of the first match. -/
def searchNum : List Char → Option NumParts
  | [] => none
  | c :: rest =>
    match matchAt (c :: rest) with
    | some p => some p
    | none => searchNum rest

/-- Rational value denoted by a matched literal, as float() parses it. -/
def ratOfParts (p : NumParts) : ℚ :=
  let mant : ℚ := (p.ip : ℚ) + (p.fp : ℚ) / (10 : ℚ) ^ p.fplen
  let v : ℚ := mant * pow10 p.expo
  if p.neg then -v else v

/-- convert_to_float (Multimeter.py lines 18-38): first numeric literal in
the string, none when the Python code would raise
ValueError("No valid number found in the string"). -/
def convert_to_float (s : String) : Option ℚ :=
  (searchNum s.data).map ratOfParts

/-! ### Data model -/

/-- Modelled from the spec: the MeasurementType class lives in
py2700/MeasurementType.py which is not among the sources; per the spec it
is an immutable descriptor carrying the measurement function name and the
ordered sequence of setup command templates, and Multimeter.py reads
exactly the two fields used here (function, setup_commands). -/
structure MeasurementType where
  function : String
  setup_commands : List String
  deriving DecidableEq

/-- The Channel class (lines 45-61). -/
structure Channel where
  id : ℤ
  measurement_type : MeasurementType
  unit : String
  setup_commands : List String
  deriving DecidableEq

/-- The loop of Channel.__init__ appending the channel-list string to each
setup command template. -/
def appendClist (clist : String) : List String → List String
  | [] => []
  | line :: rest => (line ++ clist) :: appendClist clist rest

/-- Channel.__init__ (lines 50-58): clist is the comma-prefixed channel
qualifier ",(@<id>)". -/
def Channel.init (id : ℤ) (measurement_type : MeasurementType)
    (unit : String) : Channel :=
  let clist : String := ",(@" ++ (toString id ++ ")")
  ⟨id, measurement_type, unit, appendClist clist measurement_type.setup_commands⟩

/-- The Measurement class (lines 64-74). -/
structure Measurement where
  channel_id : ℤ
  time : ℚ
  value : ℚ
  unit : String
  deriving DecidableEq

instance : Inhabited Measurement := ⟨⟨0, 0, 0, ""⟩⟩

/-- Measurement.__init__ (lines 70-74). -/
def Measurement.init (channel : Channel) (time : ℚ) (value : ℚ) :
    Measurement :=
  ⟨channel.id, time, value, channel.unit⟩

/-- Lookup in the readings dictionary (keyed by channel id). -/
def dget : List (ℤ × Measurement) → ℤ → Option Measurement
  | [], _ => none
  | (k2, v) :: rest, k => if k2 = k then some v else dget rest k

/-- Assignment self.readings[k] = v with Python dict semantics: replace in
place when the key is present, append otherwise. -/
def dset : List (ℤ × Measurement) → ℤ → Measurement → List (ℤ × Measurement)
  | [], k, v => [(k, v)]
  | (k2, v2) :: rest, k, v =>
    if k2 = k then (k, v) :: rest else (k2, v2) :: dset rest k v

/-- Python round(x, n).  Modelled as exact rational rounding half up; the
Python implementation rounds binary floats half to even, but no statement
in this development evaluates round at a tie. -/
def pyRound (x : ℚ) (n : ℕ) : ℚ :=
  (⌊x * (10 : ℚ) ^ n + 1 / 2⌋ : ℚ) / (10 : ℚ) ^ n

/-- The ScanResult class (lines 77-121): raw token list, channel snapshot,
readings dictionary, the timestamp field (mutated during decoding) and the
device_time field (the spec calls it device_clock). -/
structure ScanResult where
  raw_result : List String
  channels : List Channel
  readings : List (ℤ × Measurement)
  timestamp : ℚ
  device_time : ℚ
  deriving DecidableEq

/-- The decoding loop of ScanResult.__init__ (lines 100-121) with its
mutable state made explicit: remaining entries, entry_index, channel_index,
last_value, self.timestamp, self.device_time, self.readings.  Tokens at
entry_index % 3 == 0 are value tokens, at % 3 == 1 time tokens (where the
reading for the current channel is also stored), at % 3 == 2 echo tokens. -/
def scanLoop (channels : List Channel) (rounding : ℕ) (user_timestamp : Bool) :
    List String → ℕ → ℕ → ℚ → ℚ → ℚ → List (ℤ × Measurement) →
    Except PyErr (ℚ × ℚ × List (ℤ × Measurement))
  | [], _, _, _, ts, dt, rd => .ok (ts, dt, rd)
  | entry :: rest, ei, ci, lv, ts, dt, rd =>
    if ei % 3 = 0 then
      match convert_to_float entry with
      | none => .error .valueError
      | some v => scanLoop channels rounding user_timestamp rest (ei + 1) ci v ts dt rd
    else if ei % 3 = 1 then
      if user_timestamp then
        match channels[ci]? with
        | none => .error .indexError
        | some ch =>
          scanLoop channels rounding user_timestamp rest (ei + 1) (ci + 1) lv ts dt
            (dset rd ch.id (Measurement.init ch (pyRound ts rounding) lv))
      else
        match convert_to_float entry with
        | none => .error .valueError
        | some t =>
          let ts2 := if ts ≠ 0 then t - ts else ts
          let dt2 := if t = 0 then 1 / 1000000 else t
          match channels[ci]? with
          | none => .error .indexError
          | some ch =>
            scanLoop channels rounding user_timestamp rest (ei + 1) (ci + 1) lv ts2 dt2
              (dset rd ch.id (Measurement.init ch (pyRound ts2 rounding) lv))
    else
      scanLoop channels rounding user_timestamp rest (ei + 1) ci lv ts dt rd

/-- ScanResult.__init__ (lines 82-121): initial state entry_index = 0,
channel_index = 0, last_value = 0.0, self.timestamp = timestamp,
self.device_time = 0.0, self.readings = empty. -/
def ScanResult.init (channels : List Channel) (raw_result : List String)
    (timestamp : ℚ) (rounding : ℕ) (user_timestamp : Bool) :
    Except PyErr ScanResult :=
  match scanLoop channels rounding user_timestamp raw_result 0 0 0 timestamp 0 [] with
  | .error e => .error e
  | .ok (ts, dt, rd) => .ok ⟨raw_result, channels, rd, ts, dt⟩

/-! ### CSV serialization (ScanResult.make_csv_row / make_csv_header) -/

/-- Abstraction of Python str() on a float value; only used as an opaque
injection of numbers into the CSV text, the claims fix no float format. -/
def pyFloatStr (q : ℚ) : String := toString q

/-- Python string[:-1]: drop the last character (identity on the empty
string). -/
def pySliceDropLast (s : String) : String := String.mk s.data.dropLast

/-- Accumulating loop of make_csv_row (lines 131-139); KeyError when a
channel has no reading. -/
def csvRowAux (readings : List (ℤ × Measurement)) :
    List Channel → String → Except PyErr String
  | [], acc => .ok acc
  | channel :: rest, acc =>
    match dget readings channel.id with
    | none => .error .keyError
    | some mm =>
      csvRowAux readings rest
        (acc ++ (pyFloatStr mm.time ++ ("," ++ (pyFloatStr mm.value ++ ","))))

/-- ScanResult.make_csv_row (lines 123-140). -/
def ScanResult.make_csv_row (r : ScanResult) : Except PyErr String :=
  match csvRowAux r.readings r.channels "" with
  | .error e => .error e
  | .ok s => .ok (pySliceDropLast s ++ "\n")

/-- Accumulating loop of make_csv_header (lines 150-162). -/
def csvHeaderAux : List Channel → String → String
  | [], acc => acc
  | channel :: rest, acc =>
    csvHeaderAux rest
      (acc ++ ("Channel " ++ (toString channel.id ++ (" Time (s),Channel " ++
        (toString channel.id ++ (" Value (" ++ (channel.unit ++ "),")))))))

/-- ScanResult.make_csv_header (lines 142-162). -/
def ScanResult.make_csv_header (r : ScanResult) : String :=
  pySliceDropLast (csvHeaderAux r.channels "") ++ "\n"

/-! ### Multimeter state and lifecycle -/

/-- The mutable attributes of the Multimeter object that the decoded claims
depend on; writes is the log of command lines sent with
self.device.write(...) by the modelled methods. -/
structure MState where
  channels : List Channel
  setup : Bool
  first_scan : Bool
  last_scan_result : Option ScanResult
  temperature_units : String
  writes : List String
  deriving DecidableEq

/-- Python str.upper(): upper-case every character. -/
def pyUpper (s : String) : String := String.mk (s.data.map Char.toUpper)

/-- Multimeter.set_temperature_units (lines 226-245): upper-case the
argument, raise invalid_unit_exception unless it is one of K, F, C, and
only then store it and send the UNIT:TEMP command. -/
def Multimeter.set_temperature_units (m : MState)
    (temperature_units : String) : Except PyErr MState :=
  let up := pyUpper temperature_units
  if up ∉ (["K", "F", "C"] : List String) then .error .invalidUnit
  else
    .ok { m with temperature_units := up,
                 writes := m.writes ++ ["UNIT:TEMP " ++ up] }

/-- Multimeter.get_scan_result (lines 347-357): build a ScanResult from the
raw reply tokens and store it in self.last_scan_result. -/
def Multimeter.get_scan_result (m : MState) (raw : List String)
    (timestamp : ℚ) (rounding : ℕ) (user_timestamp : Bool) :
    Except PyErr (MState × ScanResult) :=
  match ScanResult.init m.channels raw timestamp rounding user_timestamp with
  | .error e => .error e
  | .ok r => .ok ({ m with last_scan_result := some r }, r)

/-- Multimeter.scan (lines 307-345): dispatch between the automatic first
scan (baseline 0), the automatic subsequent scan (baseline recomputed from
the previous result) and the explicit, user-supplied timestamp. -/
def Multimeter.scan (m : MState) (raw : List String) (timestamp : ℚ)
    (rounding : ℕ) : Except PyErr (MState × ScanResult) :=
  if m.setup = false then .error .notSetUp
  else if m.first_scan = true ∧ timestamp = 0 then
    Multimeter.get_scan_result { m with first_scan := false } raw timestamp rounding false
  else if m.first_scan = false ∧ timestamp = 0 then
    match m.last_scan_result with
    | none => .error .attributeError
    | some last =>
      Multimeter.get_scan_result m raw (last.device_time - last.timestamp) rounding false
  else
    Multimeter.get_scan_result { m with first_scan := false } raw timestamp rounding true

/-! ### Spec-side reference definitions (used to state refinement claims) -/

/-- Written from the spec wording for make_csv_row: per channel in
configured order the cell pair time-comma-value-comma, concatenated. -/
def rowCellsSpec (readings : List (ℤ × Measurement)) : List Channel → String
  | [] => ""
  | channel :: rest =>
    (match dget readings channel.id with
     | some mm => pyFloatStr mm.time ++ ("," ++ (pyFloatStr mm.value ++ ","))
     | none => "") ++ rowCellsSpec readings rest

/-- Written from the spec wording for make_csv_header: per channel the
header pair for time and value columns, concatenated. -/
def headerCellsSpec : List Channel → String
  | [] => ""
  | channel :: rest =>
    ("Channel " ++ (toString channel.id ++ (" Time (s),Channel " ++
      (toString channel.id ++ (" Value (" ++ (channel.unit ++ "),")))))) ++
      headerCellsSpec rest

/-! ### Concrete fixtures -/

/-- A measurement type fixture with a single setup command template. -/
def mtTemp : MeasurementType := ⟨"TEMP", ["SENS:FUNC TEMP"]⟩

/-- Channel 101 fixture. -/
def chA : Channel := Channel.init 101 mtTemp "C"

/-- Channel 102 fixture. -/
def chB : Channel := Channel.init 102 mtTemp "C"

/-- A multimeter state fixture ready for its first scan with one channel. -/
def mFirst : MState := ⟨[chA], true, true, none, "C", []⟩

/-- A previous scan result fixture with device clock 10 and elapsed time 4. -/
def prevResult : ScanResult := ⟨[], [chA], [], 4, 10⟩

/-- A multimeter state fixture after a first scan that produced prevResult. -/
def mSecond : MState := ⟨[chA], true, false, some prevResult, "C", []⟩

/-- The result the code produces for the automatic first scan of channel 101
with reply tokens 1.0, 1.000000, 101 at rounding 2. -/
def res1Fix : ScanResult :=
  ⟨["1.0", "1.000000", "101"], [chA], [(101, ⟨101, 0, 1, "C"⟩)], 0, 1⟩

/-- The result the code produces for an automatic scan of channels 101, 102
with baseline 6 and reply tokens 1.0, 9.0, 101, 2.0, 9.1, 102. -/
def res2Fix : ScanResult :=
  ⟨["1.0", "9.0", "101", "2.0", "9.1", "102"], [chA, chB],
    [(101, ⟨101, 3, 1, "C"⟩), (102, ⟨102, 61 / 10, 2, "C"⟩)], 61 / 10, 91 / 10⟩

/-- The result the code produces for the automatic second scan after
prevResult (baseline 6) with reply tokens 1.0, 9.0, 101. -/
def res3Fix : ScanResult :=
  ⟨["1.0", "9.0", "101"], [chA], [(101, ⟨101, 3, 1, "C"⟩)], 3, 9⟩

/-- The result the code produces for an explicit-time scan (timestamp 5) of
channel 101 with reply tokens 1.0, 9.0, 101. -/
def res4Fix : ScanResult :=
  ⟨["1.0", "9.0", "101"], [chA], [(101, ⟨101, 5, 1, "C"⟩)], 5, 0⟩

/-- The multimeter state after the explicit-time scan that produced res4Fix. -/
def mAfter5 : MState := ⟨[chA], true, false, some res4Fix, "C", []⟩

/-! ### Helper lemmas: concrete parses -/

theorem searchNum_12_5C : searchNum "12.5C".data = some ⟨false, 12, 5, 1, 0⟩ := by decide

theorem convFloat_12_5C : convert_to_float "12.5C" = some (25 / 2) := by
  rw [convert_to_float, searchNum_12_5C]
  simp [ratOfParts, pow10]
  norm_num

theorem searchNum_neg32e : searchNum "-3.2E-03V".data = some ⟨true, 3, 2, 1, -3⟩ := by decide

theorem convFloat_neg32e : convert_to_float "-3.2E-03V" = some (-(32 / 10000)) := by
  rw [convert_to_float, searchNum_neg32e]
  simp [ratOfParts, pow10]
  norm_num

theorem searchNum_1e6 : searchNum "+1e6".data = some ⟨false, 1, 0, 0, 6⟩ := by decide

theorem convFloat_1e6 : convert_to_float "+1e6" = some 1000000 := by
  rw [convert_to_float, searchNum_1e6]
  simp [ratOfParts, pow10]
  norm_num

theorem convFloat_1_0 : convert_to_float "1.0" = some 1 := by
  have h : searchNum "1.0".data = some ⟨false, 1, 0, 1, 0⟩ := by decide
  rw [convert_to_float, h]
  simp [ratOfParts, pow10]

theorem convFloat_1_000000 : convert_to_float "1.000000" = some 1 := by
  have h : searchNum "1.000000".data = some ⟨false, 1, 0, 6, 0⟩ := by decide
  rw [convert_to_float, h]
  simp [ratOfParts, pow10]

theorem convFloat_2_0 : convert_to_float "2.0" = some 2 := by
  have h : searchNum "2.0".data = some ⟨false, 2, 0, 1, 0⟩ := by decide
  rw [convert_to_float, h]
  simp [ratOfParts, pow10]

theorem convFloat_3_0 : convert_to_float "3.0" = some 3 := by
  have h : searchNum "3.0".data = some ⟨false, 3, 0, 1, 0⟩ := by decide
  rw [convert_to_float, h]
  simp [ratOfParts, pow10]

theorem convFloat_4_0 : convert_to_float "4.0" = some 4 := by
  have h : searchNum "4.0".data = some ⟨false, 4, 0, 1, 0⟩ := by decide
  rw [convert_to_float, h]
  simp [ratOfParts, pow10]

theorem convFloat_9_0 : convert_to_float "9.0" = some 9 := by
  have h : searchNum "9.0".data = some ⟨false, 9, 0, 1, 0⟩ := by decide
  rw [convert_to_float, h]
  simp [ratOfParts, pow10]

theorem convFloat_9_1 : convert_to_float "9.1" = some (91 / 10) := by
  have h : searchNum "9.1".data = some ⟨false, 9, 1, 1, 0⟩ := by decide
  rw [convert_to_float, h]
  simp [ratOfParts, pow10]
  norm_num

theorem convFloat_101 : convert_to_float "101" = some 101 := by
  have h : searchNum "101".data = some ⟨false, 101, 0, 0, 0⟩ := by decide
  rw [convert_to_float, h]
  simp [ratOfParts, pow10]

theorem convFloat_102 : convert_to_float "102" = some 102 := by
  have h : searchNum "102".data = some ⟨false, 102, 0, 0, 0⟩ := by decide
  rw [convert_to_float, h]
  simp [ratOfParts, pow10]

theorem convFloat_junk : convert_to_float "junk" = none := by
  have h : searchNum "junk".data = none := by decide
  rw [convert_to_float, h]
  rfl

/-! ### Helper lemmas: tokens without digits never parse -/

theorem takeWhile_isDigit_nil {l : List Char}
    (h : ∀ c ∈ l, c.isDigit = false) : l.takeWhile Char.isDigit = [] := by
  cases l with
  | nil => rfl
  | cons c rest => simp [List.takeWhile_cons, h c (by simp)]

theorem matchMantissa_none {l : List Char}
    (h : ∀ c ∈ l, c.isDigit = false) : matchMantissa l = none := by
  cases l with
  | nil => rfl
  | cons c rest =>
    have hc : c.isDigit = false := h c (by simp)
    have hrest : ∀ d ∈ rest, d.isDigit = false := fun d hd => h d (by simp [hd])
    by_cases hdot : c = '.'
    · subst hdot
      simp [matchMantissa, hc, takeWhile_isDigit_nil hrest]
    · simp [matchMantissa, hc, hdot]

theorem matchAtCore_none {neg : Bool} {l : List Char}
    (h : ∀ c ∈ l, c.isDigit = false) : matchAtCore neg l = none := by
  simp [matchAtCore, matchMantissa_none h]

theorem matchAt_none {l : List Char}
    (h : ∀ c ∈ l, c.isDigit = false) : matchAt l = none := by
  unfold matchAt
  split
  · next r => exact matchAtCore_none (fun c hc => h c (by simp [hc]))
  · next r => exact matchAtCore_none (fun c hc => h c (by simp [hc]))
  · next => exact matchAtCore_none h

theorem searchNum_none {l : List Char}
    (h : ∀ c ∈ l, c.isDigit = false) : searchNum l = none := by
  induction l with
  | nil => rfl
  | cons c rest ih =>
    have hrest : ∀ d ∈ rest, d.isDigit = false := fun d hd => h d (by simp [hd])
    simp [searchNum, matchAt_none h, ih hrest]

/-! ### Helper lemmas: Channel.init command generation -/

theorem appendClist_length (clist : String) (l : List String) :
    (appendClist clist l).length = l.length := by
  induction l with
  | nil => rfl
  | cons line rest ih => simp [appendClist, ih]

theorem appendClist_getElem? (clist : String) (l : List String) (k : ℕ) :
    (appendClist clist l)[k]? = l[k]?.map (fun line => line ++ clist) := by
  induction l generalizing k with
  | nil => simp [appendClist]
  | cons line rest ih =>
    cases k with
    | zero => simp [appendClist]
    | succ k => simp [appendClist, ih k]

/-! ### Helper lemmas: readings dictionary -/

theorem dget_dset_self (d : List (ℤ × Measurement)) (k : ℤ) (v : Measurement) :
    dget (dset d k v) k = some v := by
  induction d with
  | nil => simp [dset, dget]
  | cons p rest ih =>
    obtain ⟨k2, v2⟩ := p
    by_cases hk : k2 = k
    · simp [dset, dget, hk]
    · simp [dset, dget, hk, ih]

theorem mem_dset {d : List (ℤ × Measurement)} {k : ℤ} {v : Measurement}
    {p : ℤ × Measurement} (h : p ∈ dset d k v) : p = (k, v) ∨ p ∈ d := by
  induction d with
  | nil => simpa [dset] using h
  | cons q rest ih =>
    obtain ⟨k2, v2⟩ := q
    by_cases hk : k2 = k
    · simp [dset, hk] at h
      rcases h with h | h
      · exact Or.inl h
      · exact Or.inr (by simp [h])
    · simp [dset, hk] at h
      rcases h with h | h
      · exact Or.inr (by simp [h])
      · rcases ih h with h2 | h2
        · exact Or.inl h2
        · exact Or.inr (by simp [h2])

theorem dget_mem {d : List (ℤ × Measurement)} {k : ℤ} {v : Measurement}
    (h : dget d k = some v) : (k, v) ∈ d := by
  induction d with
  | nil => simp [dget] at h
  | cons q rest ih =>
    obtain ⟨k2, v2⟩ := q
    by_cases hk : k2 = k
    · subst hk
      simp [dget] at h
      simp [h]
    · simp [dget, hk] at h
      simp [ih h]

theorem dget_isSome_dset (d : List (ℤ × Measurement)) (k : ℤ) (v : Measurement)
    (j : ℤ) (h : (dget d j).isSome) : (dget (dset d k v) j).isSome := by
  induction d with
  | nil => simp [dget] at h
  | cons q rest ih =>
    obtain ⟨k2, v2⟩ := q
    by_cases hk : k2 = k
    · subst hk
      by_cases hj : k2 = j
      · simp [dset, dget, hj]
      · simp [dget, hj] at h
        simp [dset, dget, hj, h]
    · by_cases hj : k2 = j
      · have hjk : ¬ j = k := fun e => hk (hj.trans e)
        simp [dset, dget, hk, hj, hjk]
      · simp [dget, hj] at h
        simp [dset, dget, hk, hj, ih h]

theorem dget_dset_ne (d : List (ℤ × Measurement)) {k j : ℤ} (hkj : k ≠ j)
    (v : Measurement) : dget (dset d k v) j = dget d j := by
  induction d with
  | nil => simp [dset, dget, hkj]
  | cons q rest ih =>
    obtain ⟨k2, v2⟩ := q
    by_cases hk : k2 = k
    · subst hk
      simp [dset, dget, hkj]
    · simp [dset, dget, hk, ih]

/-! ### Helper lemmas: rounding -/

theorem pyRound_zero (n : ℕ) : pyRound 0 n = 0 := by
  have h : ⌊(1 : ℚ) / 2⌋ = 0 := by
    rw [Int.floor_eq_zero_iff, Set.mem_Ico]
    constructor
    · norm_num
    · linarith
  simp [pyRound, h]
  linarith

/-! ### Helper lemmas: the decoding loop -/

theorem scanLoop_user (channels : List Channel) (r : ℕ) (ts dt : ℚ) :
    ∀ (raw : List String) (ei ci : ℕ) (lv : ℚ) (rd : List (ℤ × Measurement))
      (out : ℚ × ℚ × List (ℤ × Measurement)),
      scanLoop channels r true raw ei ci lv ts dt rd = .ok out →
      out.1 = ts ∧ out.2.1 = dt ∧
        ∀ p ∈ out.2.2, p ∈ rd ∨ p.2.time = pyRound ts r := by
  intro raw
  induction raw with
  | nil =>
    intro ei ci lv rd out h
    simp only [scanLoop] at h
    cases h
    exact ⟨rfl, rfl, fun p hp => Or.inl hp⟩
  | cons entry rest ih =>
    intro ei ci lv rd out h
    simp only [scanLoop, if_true] at h
    by_cases h0 : ei % 3 = 0
    · rw [if_pos h0] at h
      cases hc : convert_to_float entry with
      | none => simp only [hc] at h; exact Except.noConfusion h
      | some v =>
        simp only [hc] at h
        exact ih (ei + 1) ci v rd out h
    · rw [if_neg h0] at h
      by_cases h1 : ei % 3 = 1
      · rw [if_pos h1] at h
        cases hch : channels[ci]? with
        | none => simp only [hch] at h; exact Except.noConfusion h
        | some ch =>
          simp only [hch] at h
          obtain ⟨e1, e2, e3⟩ := ih (ei + 1) (ci + 1) lv
            (dset rd ch.id (Measurement.init ch (pyRound ts r) lv)) out h
          refine ⟨e1, e2, fun p hp => ?_⟩
          rcases e3 p hp with hmem | htime
          · rcases mem_dset hmem with hpair | hold
            · subst hpair
              exact Or.inr rfl
            · exact Or.inl hold
          · exact Or.inr htime
      · rw [if_neg h1] at h
        exact ih (ei + 1) ci lv rd out h

theorem scanLoop_auto_zero (channels : List Channel) (r : ℕ) :
    ∀ (raw : List String) (ei ci : ℕ) (lv dt : ℚ) (rd : List (ℤ × Measurement))
      (out : ℚ × ℚ × List (ℤ × Measurement)),
      scanLoop channels r false raw ei ci lv 0 dt rd = .ok out →
      out.1 = 0 ∧ ∀ p ∈ out.2.2, p ∈ rd ∨ p.2.time = 0 := by
  intro raw
  induction raw with
  | nil =>
    intro ei ci lv dt rd out h
    simp only [scanLoop] at h
    cases h
    exact ⟨rfl, fun p hp => Or.inl hp⟩
  | cons entry rest ih =>
    intro ei ci lv dt rd out h
    simp only [scanLoop, if_false, Bool.false_eq_true] at h
    by_cases h0 : ei % 3 = 0
    · rw [if_pos h0] at h
      cases hc : convert_to_float entry with
      | none => simp only [hc] at h; exact Except.noConfusion h
      | some v =>
        simp only [hc] at h
        exact ih (ei + 1) ci v dt rd out h
    · rw [if_neg h0] at h
      by_cases h1 : ei % 3 = 1
      · rw [if_pos h1] at h
        cases hc : convert_to_float entry with
        | none => simp only [hc] at h; exact Except.noConfusion h
        | some t =>
          simp only [hc] at h
          rw [show (if (0 : ℚ) ≠ 0 then t - 0 else 0) = 0 from by simp] at h
          cases hch : channels[ci]? with
          | none => simp only [hch] at h; exact Except.noConfusion h
          | some ch =>
            simp only [hch] at h
            obtain ⟨e1, e3⟩ := ih (ei + 1) (ci + 1) lv _
              (dset rd ch.id (Measurement.init ch (pyRound 0 r) lv)) out h
            refine ⟨e1, fun p hp => ?_⟩
            rcases e3 p hp with hmem | htime
            · rcases mem_dset hmem with hpair | hold
              · subst hpair
                simp [Measurement.init, pyRound_zero r]
              · exact Or.inl hold
            · exact Or.inr htime
      · rw [if_neg h1] at h
        exact ih (ei + 1) ci lv dt rd out h

theorem scanLoop_dget_isSome (channels : List Channel) (r : ℕ) (u : Bool) :
    ∀ (raw : List String) (ei ci : ℕ) (lv ts dt : ℚ)
      (rd : List (ℤ × Measurement)) (out : ℚ × ℚ × List (ℤ × Measurement))
      (key : ℤ),
      scanLoop channels r u raw ei ci lv ts dt rd = .ok out →
      (dget rd key).isSome → (dget out.2.2 key).isSome := by
  intro raw
  induction raw with
  | nil =>
    intro ei ci lv ts dt rd out key h hk
    simp only [scanLoop] at h
    cases h
    exact hk
  | cons entry rest ih =>
    intro ei ci lv ts dt rd out key h hk
    simp only [scanLoop] at h
    by_cases h0 : ei % 3 = 0
    · rw [if_pos h0] at h
      cases hc : convert_to_float entry with
      | none => simp only [hc] at h; exact Except.noConfusion h
      | some v =>
        simp only [hc] at h
        exact ih (ei + 1) ci v ts dt rd out key h hk
    · rw [if_neg h0] at h
      by_cases h1 : ei % 3 = 1
      · rw [if_pos h1] at h
        cases u with
        | true =>
          rw [if_pos rfl] at h
          cases hch : channels[ci]? with
          | none => simp only [hch] at h; exact Except.noConfusion h
          | some ch =>
            simp only [hch] at h
            exact ih (ei + 1) (ci + 1) lv ts dt _ out key h
              (dget_isSome_dset rd ch.id _ key hk)
        | false =>
          rw [if_neg Bool.false_ne_true] at h
          cases hc : convert_to_float entry with
          | none => simp only [hc] at h; exact Except.noConfusion h
          | some t =>
            simp only [hc] at h
            cases hch : channels[ci]? with
            | none => simp only [hch] at h; exact Except.noConfusion h
            | some ch =>
              simp only [hch] at h
              exact ih (ei + 1) (ci + 1) lv _ _ _ out key h
                (dget_isSome_dset rd ch.id _ key hk)
      · rw [if_neg h1] at h
        exact ih (ei + 1) ci lv ts dt rd out key h hk

theorem scanLoop_user_covers (channels : List Channel) (r : ℕ) (ts dt : ℚ) :
    ∀ (n : ℕ) (raw : List String) (k : ℕ) (lv : ℚ)
      (rd : List (ℤ × Measurement)) (out : ℚ × ℚ × List (ℤ × Measurement)),
      raw.length = 3 * n → k + n = channels.length →
      scanLoop channels r true raw (3 * k) k lv ts dt rd = .ok out →
      ∀ (j : ℕ) (hj : j < channels.length), k ≤ j →
        (dget out.2.2 (channels.get ⟨j, hj⟩).id).isSome := by
  intro n
  induction n with
  | zero =>
    intro raw k lv rd out hlen hk _ j hj hkj
    omega
  | succ n ih =>
    intro raw k lv rd out hlen hk h j hj hkj
    match raw with
    | [] => simp at hlen
    | [a] => simp at hlen; omega
    | [a, b] => simp at hlen; omega
    | a :: b :: c :: rest =>
      have hrest : rest.length = 3 * n := by simp at hlen; omega
      simp only [scanLoop, if_true] at h
      rw [if_pos (by omega : (3 * k) % 3 = 0)] at h
      cases hca : convert_to_float a with
      | none => simp only [hca] at h; exact Except.noConfusion h
      | some v =>
        simp only [hca] at h
        rw [if_neg (by omega : ¬ (3 * k + 1) % 3 = 0),
          if_pos (by omega : (3 * k + 1) % 3 = 1)] at h
        cases hch : channels[k]? with
        | none =>
          rw [List.getElem?_eq_none_iff] at hch
          omega
        | some ch =>
          simp only [hch] at h
          rw [if_neg (by omega : ¬ (3 * k + 1 + 1) % 3 = 0),
            if_neg (by omega : ¬ (3 * k + 1 + 1) % 3 = 1)] at h
          rw [show 3 * k + 1 + 1 + 1 = 3 * (k + 1) from by omega] at h
          rcases Nat.eq_or_lt_of_le hkj with heq | hlt
          · have hgot : channels.get ⟨j, hj⟩ = ch := by
              have h5 := (List.getElem?_eq_some_iff.mp hch).2
              subst heq
              simp [List.get_eq_getElem, h5]
            rw [hgot]
            exact scanLoop_dget_isSome channels r true rest (3 * (k + 1)) (k + 1)
              v ts dt _ out ch.id h
              (by rw [dget_dset_self]; rfl)
          · exact ih rest (k + 1) v _ out hrest (by omega) h j hj (by omega)

/-! ### Claim theorems -/

/-- C7: numeric extraction returns the first optionally signed, optionally
fractional, optionally exponential numeric literal of the token parsed as a
number (12.5C to 12.5, -3.2E-03V to -0.0032, +1e6 to 1000000), and a token
containing no such literal (equivalently, no digit, since any digit alone
already matches the pattern) is a decode failure. -/
theorem claim7_numeric_extraction :
    convert_to_float "12.5C" = some (25 / 2) ∧
    convert_to_float "-3.2E-03V" = some (-(32 / 10000)) ∧
    convert_to_float "+1e6" = some 1000000 ∧
    ∀ s : String, (∀ c ∈ s.data, c.isDigit = false) → convert_to_float s = none := by
  refine ⟨convFloat_12_5C, convFloat_neg32e, convFloat_1e6, fun s h => ?_⟩
  rw [convert_to_float, searchNum_none h]
  rfl

/-- C7 witness: a concrete digit-free token fails to parse. -/
theorem claim7_witness : convert_to_float "no-digits" = none :=
  claim7_numeric_extraction.2.2.2 "no-digits" (by decide)

/-- C8 counterexample: the string appended to each template is the
comma-prefixed channel list ",(@101)", so the resulting command is not the
template directly followed by the bare qualifier "(@101)" that the claim
names. -/
theorem claim8_counterexample :
    (Channel.init 101 mtTemp "C").setup_commands = ["SENS:FUNC TEMP,(@101)"] ∧
    "SENS:FUNC TEMP,(@101)" ≠ "SENS:FUNC TEMP" ++ "(@101)" := by
  constructor
  · decide
  · decide

/-- C8 (amended): Channel construction appends the comma-prefixed
channel-list qualifier ",(@<id>)" to each template, preserving order and
length: the k-th setup command is the k-th template followed by that
comma-prefixed qualifier. -/
theorem claim8_amended (id : ℤ) (measurement_type : MeasurementType)
    (unit : String) (k : ℕ) :
    (Channel.init id measurement_type unit).setup_commands.length =
      measurement_type.setup_commands.length ∧
    (Channel.init id measurement_type unit).setup_commands[k]? =
      measurement_type.setup_commands[k]?.map
        (fun line => line ++ (",(@" ++ (toString id ++ ")"))) := by
  constructor
  · simp [Channel.init, appendClist_length]
  · simp [Channel.init, appendClist_getElem?]

/-- C10: for every input whose upper-cased form is not one of C, F, K,
set_temperature_units raises the invalid-unit error; the check precedes
both the assignment to the stored unit field and the UNIT:TEMP device
write, so nothing is mutated (the embedding returns no successor state on
error). -/
theorem claim10_invalid_unit (m : MState) (u : String)
    (h : pyUpper u ∉ (["K", "F", "C"] : List String)) :
    Multimeter.set_temperature_units m u = .error .invalidUnit := by
  simp [Multimeter.set_temperature_units, h]

/-- C10 witness: the concrete invalid unit "x". -/
theorem claim10_witness :
    Multimeter.set_temperature_units mFirst "x" = .error .invalidUnit :=
  claim10_invalid_unit mFirst "x" (by decide)

/-! ### Helper lemmas: decomposing successful scans -/

theorem get_scan_result_ok {m : MState} {raw : List String} {ts : ℚ} {r : ℕ}
    {u : Bool} {m2 : MState} {res : ScanResult}
    (h : Multimeter.get_scan_result m raw ts r u = .ok (m2, res)) :
    ScanResult.init m.channels raw ts r u = .ok res := by
  unfold Multimeter.get_scan_result at h
  cases hi : ScanResult.init m.channels raw ts r u with
  | error e => rw [hi] at h; exact Except.noConfusion h
  | ok r0 =>
    rw [hi] at h
    have h2 := Except.ok.inj h
    have h3 : res = r0 := (congrArg Prod.snd h2).symm
    rw [h3]

/-! ### Helper lemmas: concrete pipeline evaluations -/

theorem init1_eval :
    ScanResult.init [chA] ["1.0", "1.000000", "101"] 0 2 false = .ok res1Fix := by
  norm_num [ScanResult.init, scanLoop, convFloat_1_0, convFloat_1_000000,
    Measurement.init, dset, pyRound_zero, res1Fix, chA, Channel.init, mtTemp,
    appendClist]

theorem init2_eval :
    ScanResult.init [chA, chB] ["1.0", "9.0", "101", "2.0", "9.1", "102"] 6 2 false =
      .ok res2Fix := by
  norm_num [ScanResult.init, scanLoop, convFloat_1_0, convFloat_9_0,
    convFloat_2_0, convFloat_9_1, Measurement.init, dset, pyRound, res2Fix,
    chA, chB, Channel.init, mtTemp, appendClist]

theorem scan_explicit_eval :
    Multimeter.scan mFirst ["1.0", "9.0", "101"] 5 2 = .ok (mAfter5, res4Fix) := by
  norm_num [Multimeter.scan, mFirst, mAfter5, Multimeter.get_scan_result,
    ScanResult.init, scanLoop, convFloat_1_0, convFloat_9_0, Measurement.init,
    dset, pyRound, res4Fix, chA, Channel.init, mtTemp, appendClist]

/-! ### Claim C1: automatic first scan -/

/-- C1 counterexample: on the automatic first scan (baseline 0) with device
time token 1.000000, the recorded Measurement.time is 0, not the token
rounded to the precision (which is 1); device_clock does equal the token. -/
theorem claim1_counterexample :
    Multimeter.scan mFirst ["1.0", "1.000000", "101"] 0 2 =
      .ok ({ mFirst with first_scan := false, last_scan_result := some res1Fix },
        res1Fix) ∧
    dget res1Fix.readings 101 = some ⟨101, 0, 1, "C"⟩ ∧
    res1Fix.device_time = 1 ∧
    pyRound 1 2 = 1 ∧
    ¬ ((0 : ℚ) = 1) := by
  refine ⟨?_, by norm_num [res1Fix, dget], by norm_num [res1Fix],
    by norm_num [pyRound], by norm_num⟩
  norm_num [Multimeter.scan, mFirst, Multimeter.get_scan_result, ScanResult.init,
    scanLoop, convFloat_1_0, convFloat_1_000000, Measurement.init, dset,
    pyRound_zero, res1Fix, chA, Channel.init, mtTemp, appendClist]

/-- C1 (amended): in automatic mode with baseline 0 (the first scan of a
session), self.timestamp is never updated, so every decoded
Measurement.time equals 0, not the device token; the ScanResult's timestamp
stays 0 (device_clock still records the token, see the counterexample). -/
theorem claim1_amended (channels : List Channel) (raw : List String) (r : ℕ)
    (res : ScanResult)
    (h : ScanResult.init channels raw 0 r false = .ok res) :
    res.timestamp = 0 ∧ ∀ p ∈ res.readings, p.2.time = 0 := by
  unfold ScanResult.init at h
  cases hl : scanLoop channels r false raw 0 0 0 0 0 [] with
  | error e => rw [hl] at h; exact Except.noConfusion h
  | ok out =>
    obtain ⟨ts2, dt2, rd2⟩ := out
    simp only [hl, Except.ok.injEq] at h
    subst h
    obtain ⟨e1, e2⟩ := scanLoop_auto_zero channels r raw 0 0 0 0 [] (ts2, dt2, rd2) hl
    refine ⟨e1, fun p hp => ?_⟩
    rcases e2 p hp with hin | ht
    · simp at hin
    · exact ht

/-- C1 witness: the amended theorem applied to the concrete first scan. -/
theorem claim1_witness : res1Fix.timestamp = 0 :=
  (claim1_amended [chA] ["1.0", "1.000000", "101"] 2 res1Fix init1_eval).1

/-! ### Claim C2: one baseline per scan? -/

/-- C2 counterexample: with baseline 6 and device time tokens 9.0 then 9.1,
the second channel's time is 6.1 = 9.1 - (9.0 - 6), not the first channel's
elapsed 3 = 9.0 - 6; and device_clock is the last token 9.1, not the first
token 9.0. -/
theorem claim2_counterexample :
    ScanResult.init [chA, chB] ["1.0", "9.0", "101", "2.0", "9.1", "102"] 6 2 false =
      .ok res2Fix ∧
    dget res2Fix.readings 102 = some ⟨102, 61 / 10, 2, "C"⟩ ∧
    ¬ ((61 : ℚ) / 10 = pyRound (9 - 6) 2) ∧
    res2Fix.device_time = 91 / 10 ∧
    ¬ ((91 : ℚ) / 10 = 9) := by
  refine ⟨init2_eval, by norm_num [res2Fix, dget], ?_, by norm_num [res2Fix],
    by norm_num⟩
  norm_num [pyRound]

/-- C2 (amended): in automatic mode the subtrahend is re-derived at every
channel from the previous channel's already-adjusted timestamp: with
baseline b and per-channel time tokens t1, t2, channel 1 is stamped
round(t1 - b) but channel 2 is stamped round(t2 - (t1 - b)); the
ScanResult's timestamp ends at t2 - (t1 - b) and device_clock is the last
channel's token (forced to 1e-6 when zero), not the first channel's. -/
theorem claim2_amended (c1 c2 : Channel) (v1 t1 e1 v2 t2 e2 : String)
    (b q1 p1 q2 p2 : ℚ) (r : ℕ) (res : ScanResult)
    (hv1 : convert_to_float v1 = some q1) (ht1 : convert_to_float t1 = some p1)
    (hv2 : convert_to_float v2 = some q2) (ht2 : convert_to_float t2 = some p2)
    (hb : b ≠ 0) (hd : p1 - b ≠ 0) (hne : c1.id ≠ c2.id)
    (h : ScanResult.init [c1, c2] [v1, t1, e1, v2, t2, e2] b r false = .ok res) :
    dget res.readings c1.id = some ⟨c1.id, pyRound (p1 - b) r, q1, c1.unit⟩ ∧
    dget res.readings c2.id = some ⟨c2.id, pyRound (p2 - (p1 - b)) r, q2, c2.unit⟩ ∧
    res.timestamp = p2 - (p1 - b) ∧
    res.device_time = (if p2 = 0 then 1 / 1000000 else p2) := by
  have hrun : ScanResult.init [c1, c2] [v1, t1, e1, v2, t2, e2] b r false =
      .ok ⟨[v1, t1, e1, v2, t2, e2], [c1, c2],
        [(c1.id, ⟨c1.id, pyRound (p1 - b) r, q1, c1.unit⟩),
         (c2.id, ⟨c2.id, pyRound (p2 - (p1 - b)) r, q2, c2.unit⟩)],
        p2 - (p1 - b), if p2 = 0 then 1 / 1000000 else p2⟩ := by
    simp [ScanResult.init, scanLoop, hv1, ht1, hv2, ht2, Measurement.init,
      hb, hd, dset, hne]
  rw [hrun] at h
  have h2 : res = _ := (Except.ok.inj h).symm
  subst h2
  refine ⟨?_, ?_, rfl, rfl⟩
  · simp [dget]
  · simp [dget, hne]

/-- C2 witness: the amended rolling-baseline rule at the concrete inputs of
the counterexample. -/
theorem claim2_witness :
    dget res2Fix.readings chA.id =
      some ⟨chA.id, pyRound (9 - 6) 2, 1, chA.unit⟩ :=
  (claim2_amended chA chB "1.0" "9.0" "101" "2.0" "9.1" "102" 6 1 9 2 (91 / 10) 2
    res2Fix convFloat_1_0 convFloat_9_0 convFloat_2_0 convFloat_9_1
    (by norm_num) (by norm_num) (by decide) init2_eval).1

/-! ### Claim C3: baseline of subsequent automatic scans -/

/-- C3: every automatic-mode scan after the first uses
baseline = last_scan_result.device_time - last_scan_result.timestamp, the
previous result's device clock minus its own elapsed time; concretely, with
device_clock 10 and elapsed 4 the next baseline is 6, and a new device time
token 9.0 then yields elapsed time 3. -/
theorem claim3_subsequent_baseline (m : MState) (last : ScanResult)
    (raw : List String) (r : ℕ)
    (hsetup : m.setup = true) (hfirst : m.first_scan = false)
    (hlast : m.last_scan_result = some last) :
    Multimeter.scan m raw 0 r =
      Multimeter.get_scan_result m raw (last.device_time - last.timestamp) r false ∧
    prevResult.device_time - prevResult.timestamp = 6 ∧
    Multimeter.scan mSecond ["1.0", "9.0", "101"] 0 2 =
      .ok ({ mSecond with last_scan_result := some res3Fix }, res3Fix) ∧
    dget res3Fix.readings 101 = some ⟨101, 3, 1, "C"⟩ := by
  refine ⟨?_, by norm_num [prevResult], ?_, by norm_num [res3Fix, dget]⟩
  · simp [Multimeter.scan, hsetup, hfirst, hlast]
  · norm_num [Multimeter.scan, mSecond, prevResult, Multimeter.get_scan_result,
      ScanResult.init, scanLoop, convFloat_1_0, convFloat_9_0, Measurement.init,
      dset, pyRound, res3Fix, chA, Channel.init, mtTemp, appendClist]

/-- C3 witness: applied to the concrete second-scan state. -/
theorem claim3_witness :
    Multimeter.scan mSecond ["1.0", "9.0", "101"] 0 2 =
      Multimeter.get_scan_result mSecond ["1.0", "9.0", "101"]
        (prevResult.device_time - prevResult.timestamp) 2 false :=
  (claim3_subsequent_baseline mSecond prevResult ["1.0", "9.0", "101"] 2
    rfl rfl rfl).1

/-! ### Claim C4: device_clock in explicit-time mode -/

/-- C4 counterexample: an explicit-time scan (timestamp 5) with device time
token 9.0 leaves device_time at its initial 0.0, it does not record the
token 9. -/
theorem claim4_counterexample :
    Multimeter.scan mFirst ["1.0", "9.0", "101"] 5 2 = .ok (mAfter5, res4Fix) ∧
    res4Fix.device_time = 0 ∧
    convert_to_float "9.0" = some 9 ∧
    ¬ ((0 : ℚ) = 9) := by
  exact ⟨scan_explicit_eval, by norm_num [res4Fix], convFloat_9_0, by norm_num⟩

/-- C4 (amended): in explicit-time mode the device time tokens are not
decoded at all: the ScanResult's device_time keeps its initial value 0.0
(so a later automatic scan's baseline is 0 - explicit_time, not derived
from the device clock), and its timestamp is exactly the explicit time. -/
theorem claim4_amended (channels : List Channel) (raw : List String) (ts : ℚ)
    (r : ℕ) (res : ScanResult)
    (h : ScanResult.init channels raw ts r true = .ok res) :
    res.device_time = 0 ∧ res.timestamp = ts := by
  unfold ScanResult.init at h
  cases hl : scanLoop channels r true raw 0 0 0 ts 0 [] with
  | error e => rw [hl] at h; exact Except.noConfusion h
  | ok out =>
    obtain ⟨ts2, dt2, rd2⟩ := out
    simp only [hl, Except.ok.injEq] at h
    subst h
    obtain ⟨e1, e2, _⟩ := scanLoop_user channels r ts 0 raw 0 0 0 [] (ts2, dt2, rd2) hl
    exact ⟨e2, e1⟩

theorem init5_eval :
    ScanResult.init [chA] ["1.0", "9.0", "101"] 5 2 true = .ok res4Fix := by
  norm_num [ScanResult.init, scanLoop, convFloat_1_0, Measurement.init,
    dset, pyRound, res4Fix, chA, Channel.init, mtTemp, appendClist]

/-- C4 witness: the amended theorem at the concrete explicit-time scan. -/
theorem claim4_witness : res4Fix.device_time = 0 ∧ res4Fix.timestamp = 5 :=
  claim4_amended [chA] ["1.0", "9.0", "101"] 5 2 res4Fix init5_eval

/-! ### Claim C5: explicit-time stamping -/

/-- C5: scanning with a non-zero explicit timestamp stamps every decoded
reading with round(explicit_time, rounding), regardless of the device time
tokens; and when the token count is exactly 3 per channel, every configured
channel receives a reading. -/
theorem claim5_explicit_time (m : MState) (raw : List String) (t : ℚ) (r : ℕ)
    (m2 : MState) (res : ScanResult) (ht : ¬ t = 0)
    (h : Multimeter.scan m raw t r = .ok (m2, res)) :
    (∀ p ∈ res.readings, p.2.time = pyRound t r) ∧
    (raw.length = 3 * m.channels.length →
      ∀ ch ∈ m.channels, (dget res.readings ch.id).isSome) := by
  unfold Multimeter.scan at h
  by_cases hs : m.setup = false
  · rw [if_pos hs] at h; exact Except.noConfusion h
  · rw [if_neg hs, if_neg (fun hc => ht hc.2), if_neg (fun hc => ht hc.2)] at h
    have hinit0 := get_scan_result_ok (m := { m with first_scan := false }) h
    have hinit : ScanResult.init m.channels raw t r true = .ok res := hinit0
    unfold ScanResult.init at hinit
    cases hl : scanLoop m.channels r true raw 0 0 0 t 0 [] with
    | error e => rw [hl] at hinit; exact Except.noConfusion hinit
    | ok out =>
      obtain ⟨ts2, dt2, rd2⟩ := out
      simp only [hl, Except.ok.injEq] at hinit
      subst hinit
      obtain ⟨_, _, e3⟩ := scanLoop_user m.channels r t 0 raw 0 0 0 [] (ts2, dt2, rd2) hl
      constructor
      · intro p hp
        rcases e3 p hp with hin | htime
        · simp at hin
        · exact htime
      · intro hlen ch hch
        obtain ⟨⟨j, hj⟩, hget⟩ := List.mem_iff_get.mp hch
        have hcov := scanLoop_user_covers m.channels r t 0 m.channels.length raw
          0 0 [] (ts2, dt2, rd2) hlen (by omega) hl j hj (Nat.zero_le j)
        rw [hget] at hcov
        exact hcov

/-- C5 witness: the explicit-time theorem applied to a concrete scan with
explicit_time 5: the decoded reading of channel 101 is stamped
round(5, 2). -/
theorem claim5_witness :
    ((101, (⟨101, 5, 1, "C"⟩ : Measurement)) : ℤ × Measurement).2.time =
      pyRound 5 2 :=
  (claim5_explicit_time mFirst ["1.0", "9.0", "101"] 5 2 mAfter5 res4Fix
    (by norm_num) scan_explicit_eval).1
    (101, ⟨101, 5, 1, "C"⟩) (by simp [res4Fix])

/-! ### Claim C6: token count mismatches -/

/-- C6 counterexample: with two configured channels but only four tokens,
decoding raises nothing and returns a ScanResult holding a single reading:
a partially populated result whose readings count differs from the channel
count is handed back to the caller. -/
theorem claim6_counterexample :
    ScanResult.init [chA, chB] ["1.0", "2.0", "101", "3.0"] 0 2 false =
      .ok ⟨["1.0", "2.0", "101", "3.0"], [chA, chB],
        [(101, ⟨101, 0, 1, "C"⟩)], 0, 2⟩ ∧
    ([(101, ((⟨101, 0, 1, "C"⟩ : Measurement)))] : List (ℤ × Measurement)).length = 1 ∧
    ([chA, chB] : List Channel).length = 2 ∧
    ¬ ((1 : ℕ) = 2) := by
  refine ⟨?_, rfl, rfl, by norm_num⟩
  norm_num [ScanResult.init, scanLoop, convFloat_1_0, convFloat_2_0,
    convFloat_3_0, Measurement.init, dset, pyRound_zero, chA, chB,
    Channel.init, mtTemp, appendClist]

/-- C6 (amended): a token sequence shorter than 3 x channels is decoded
without any failure into a partially populated ScanResult (readings exist
only for the time-token positions present); a longer sequence raises a bare
index error once a time token beyond the channel list is reached, not a
decode failure naming the token; only a token with no numeric literal
raises the numeric decode failure. -/
theorem claim6_amended :
    ScanResult.init [chA] ["1.0", "2.0", "101", "3.0", "4.0", "102"] 0 2 false =
      .error .indexError ∧
    ScanResult.init [chA] ["junk", "2.0", "101"] 0 2 false = .error .valueError ∧
    ScanResult.init [chA, chB] ["1.0"] 0 2 false =
      .ok ⟨["1.0"], [chA, chB], [], 0, 0⟩ := by
  refine ⟨?_, ?_, ?_⟩
  · norm_num [ScanResult.init, scanLoop, convFloat_1_0, convFloat_2_0,
      convFloat_3_0, convFloat_4_0, Measurement.init, dset, pyRound_zero,
      chA, Channel.init, mtTemp, appendClist]
  · norm_num [ScanResult.init, scanLoop, convFloat_junk]
  · norm_num [ScanResult.init, scanLoop, convFloat_1_0]

/-! ### Claim C9: CSV serialization -/

theorem csvHeaderAux_eq (chs : List Channel) :
    ∀ acc : String, csvHeaderAux chs acc = acc ++ headerCellsSpec chs := by
  induction chs with
  | nil =>
    intro acc
    simp [csvHeaderAux, headerCellsSpec, String.append_empty]
  | cons ch rest ih =>
    intro acc
    simp [csvHeaderAux, headerCellsSpec, ih, String.append_assoc]

theorem csvRowAux_ok (readings : List (ℤ × Measurement)) :
    ∀ (chs : List Channel) (acc : String),
      (∀ ch ∈ chs, (dget readings ch.id).isSome) →
      csvRowAux readings chs acc = .ok (acc ++ rowCellsSpec readings chs) := by
  intro chs
  induction chs with
  | nil =>
    intro acc _
    simp [csvRowAux, rowCellsSpec, String.append_empty]
  | cons ch rest ih =>
    intro acc hcov
    obtain ⟨mm, hmm⟩ := Option.isSome_iff_exists.mp (hcov ch (by simp))
    simp only [csvRowAux, hmm]
    rw [ih _ (fun c hc => hcov c (by simp [hc]))]
    simp [rowCellsSpec, hmm, String.append_assoc]

/-- C9: make_csv_row emits, per channel in configured order, the
time-comma-value-comma cells, concatenated with the final character (the
trailing comma) dropped and a newline appended; make_csv_header emits the
per-channel header pair the same way; both depend only on the channels and
readings fields, so repeated calls on the same data give the same string
(the embedding is pure, mirroring the side-effect-free Python loops). -/
theorem claim9_csv_serialization (r1 r2 : ScanResult)
    (hcov : ∀ ch ∈ r1.channels, (dget r1.readings ch.id).isSome)
    (hch : r1.channels = r2.channels) (hrd : r1.readings = r2.readings) :
    r1.make_csv_row =
      .ok (pySliceDropLast (rowCellsSpec r1.readings r1.channels) ++ "\n") ∧
    r1.make_csv_header = pySliceDropLast (headerCellsSpec r1.channels) ++ "\n" ∧
    r1.make_csv_row = r2.make_csv_row ∧
    r1.make_csv_header = r2.make_csv_header := by
  refine ⟨?_, ?_, ?_, ?_⟩
  · unfold ScanResult.make_csv_row
    rw [csvRowAux_ok r1.readings r1.channels "" hcov]
    simp [String.empty_append]
  · unfold ScanResult.make_csv_header
    rw [csvHeaderAux_eq]
    simp [String.empty_append]
  · unfold ScanResult.make_csv_row
    rw [hch, hrd]
  · unfold ScanResult.make_csv_header
    rw [hch]

/-- C9 witness: the row and header shapes at a concrete ScanResult. -/
theorem claim9_witness :
    res1Fix.make_csv_row =
      .ok (pySliceDropLast (rowCellsSpec res1Fix.readings res1Fix.channels) ++ "\n") :=
  (claim9_csv_serialization res1Fix res1Fix
    (by simp [res1Fix, chA, Channel.init, mtTemp, dget]) rfl rfl).1

end Py2700
